import Mathlib

/-!
Verification development for the qpvk startup negotiation layer
(`src/main.c`): capability negotiation, device enumeration/selection,
diagnostic-message routing and context teardown, shallowly embedded in
Lean 4 and proved against the specification's claims.
-/

namespace Qpvk

/-! ## Physical-device model and selection (src/main.c, `main`, lines 152-182) -/

/-- A discovered accelerator: `VkPhysicalDeviceProperties.deviceName` and
`.deviceID` (a `uint32_t`, here a `Nat` kept below `2 ^ 32` by construction
of the driver; the selection code only compares it for equality). -/
structure PhysicalDeviceDescriptor where
  deviceName : String
  deviceID : Nat
deriving DecidableEq, Repr

/-- Value of an ASCII hexadecimal digit, as accepted by `strtol` base 16. -/
def hexVal? (c : Char) : Option Nat :=
  let n := c.toNat
  if 48 ≤ n ∧ n ≤ 57 then some (n - 48)
  else if 97 ≤ n ∧ n ≤ 102 then some (n - 87)
  else if 65 ≤ n ∧ n ≤ 70 then some (n - 55)
  else none

/-- Accumulate hexadecimal digits most-significant first. -/
def hexDigitsVal (cs : List Char) : Nat :=
  cs.foldl (fun a c => 16 * a + (hexVal? c).getD 0) 0

/-- `strtol(s, NULL, 16)` on an LP64 platform, for the strings reaching the
call in `main` (they begin with `"0x"`, so no leading whitespace or sign
handling arises): skip an optional `0x`/`0X` prefix, read the longest run of
hex digits, clamp to `LONG_MAX`. -/
def strtol16 (s : String) : Nat :=
  let cs : List Char :=
    match s.toList with
    | '0' :: 'x' :: rest => rest
    | '0' :: 'X' :: rest => rest
    | rest => rest
  min (hexDigitsVal (cs.takeWhile (fun c => (hexVal? c).isSome))) (2 ^ 63 - 1)

/-- `uint32_t id = strtol(device_name, NULL, 16);` — the value truncated to
`uint32_t`. -/
def hintId (s : String) : Nat := strtol16 s % 2 ^ 32

/-- `strncmp(device_name, "0x", 2) == 0`. -/
def beginsWith0x (s : String) : Bool :=
  match s.toList with
  | '0' :: 'x' :: _ => true
  | _ => false

/-- `needle` begins `hay` (character list form). -/
def leadsWith : List Char → List Char → Bool
  | [], _ => true
  | _ :: _, [] => false
  | c :: cs, d :: ds => c == d && leadsWith cs ds

/-- `strstr(hay, needle) != NULL`: `needle` occurs somewhere in `hay`
(an empty needle always occurs). -/
def occursIn (needle : List Char) : List Char → Bool
  | [] => leadsWith needle []
  | d :: ds => leadsWith needle (d :: ds) || occursIn needle ds

/-- The C selection loops: scan from index 0, break at the first element
satisfying `P`, yield `none` when no element does (the code's `-1`). -/
def findFirst {α : Type} (P : α → Bool) : List α → Option Nat
  | [] => none
  | x :: xs => if P x then some 0 else (findFirst P xs).map (· + 1)

/-- Device selection from `main` (lines 153-182): with a hint beginning
`"0x"`, first device whose `deviceID` equals the parsed id; otherwise first
device whose name equals the hint (`strcmp`), and only failing that the
first whose name contains the hint (`strstr`); `-1` (no match or no hint)
falls back to index 0. -/
def selectPhysicalDevice (props : List PhysicalDeviceDescriptor)
    (hint : Option String) : Nat :=
  let sel : Option Nat :=
    match hint with
    | none => none
    | some h =>
      if beginsWith0x h then
        findFirst (fun p => p.deviceID == hintId h) props
      else
        match findFirst (fun p => p.deviceName == h) props with
        | some i => some i
        | none => findFirst (fun p => occursIn h.toList p.deviceName.toList) props
  sel.getD 0

/-- The spec's worked example: `[{name:"Alpha", id:0x10}, {name:"Beta",
id:0x20}, {name:"BetaPro", id:0x21}]`. -/
def exampleDevices : List PhysicalDeviceDescriptor :=
  [⟨"Alpha", 0x10⟩, ⟨"Beta", 0x20⟩, ⟨"BetaPro", 0x21⟩]

/-- `i` is the index of the first element of `l` satisfying `Q`. -/
def firstMatch {α : Type} (Q : α → Prop) (l : List α) (i : Nat) : Prop :=
  ∃ p, l.get? i = some p ∧ Q p ∧ ∀ j, j < i → ∀ q, l.get? j = some q → ¬ Q q

/-- No element of `l` satisfies `Q`. -/
def noMatch {α : Type} (Q : α → Prop) (l : List α) : Prop := ∀ p ∈ l, ¬ Q p

/-- Either `i` is the first index satisfying `Q`, or nothing matches and
`i` is the silent fallback 0. -/
def firstMatchOrZero {α : Type} (Q : α → Prop) (l : List α) (i : Nat) : Prop :=
  firstMatch Q l i ∨ (noMatch Q l ∧ i = 0)

/-! ## Capability negotiation (src/main.c, `initialize_instance`, lines 262-413,
built for the Linux platform branch of the conditional compilation) -/

/-- The discovery queries available to `initialize_instance`: the instance
layer list (`vkEnumerateInstanceLayerProperties`), the per-layer extension
lists and the driver-wide extension list
(`vkEnumerateInstanceExtensionProperties` with a layer name or `NULL`). -/
structure Catalog where
  layers : List String
  layerExts : String → List String
  globalExts : List String

/-- The validation-layer scan body (lines 288-295): a discovered layer name
matching one of the two known validation layers is appended. -/
def layerMatch (name : String) : Option String :=
  if name = "VK_LAYER_KHRONOS_validation" then some "VK_LAYER_KHRONOS_validation"
  else if name = "VK_LAYER_LUNARG_standard_validation" then
    some "VK_LAYER_LUNARG_standard_validation"
  else none

/-- The negotiated layer list `layer_names[0..layer_count)`: empty unless
`debug`, else one append per matching discovery entry, in discovery order. -/
def negotiatedLayers (cat : Catalog) (debug : Bool) : List String :=
  if debug then cat.layers.filterMap layerMatch else []

/-- `supports_EXT_debug_utils_` after the per-layer extension scan
(lines 300-324): set when some negotiated layer's extension query lists
`VK_EXT_debug_utils`. -/
def supportsDebugUtils (cat : Catalog) (debug : Bool) : Bool :=
  debug && (negotiatedLayers cat debug).any
    (fun lname => (cat.layerExts lname).any (fun e => e == "VK_EXT_debug_utils"))

/-- The surface-extension scan body (lines 346-375, Linux build): per
driver-wide discovery entry, the appended name, if any. -/
def surfaceExtMatch (ext : String) : Option String :=
  if ext = "VK_KHR_surface" then some "VK_KHR_surface"
  else if ext = "VK_KHR_display" then some "VK_KHR_display"
  else if ext = "VK_KHR_wayland_surface" then some "VK_KHR_wayland_surface"
  else if ext = "VK_KHR_xcb_surface" then some "VK_KHR_xcb_surface"
  else if ext = "VK_KHR_xlib_surface" then some "VK_KHR_xlib_surface"
  else none

/-- The negotiated extension list `extension_names[0..extension_count)`:
`VK_EXT_debug_utils` first when supported (lines 326-327), then one append
per matching driver-wide discovery entry (lines 346-375). The C storage is
a fixed `const char* extension_names[16]`; this list records every append
the code performs, whether or not it is in bounds. -/
def negotiatedExtensions (cat : Catalog) (debug : Bool) : List String :=
  (if supportsDebugUtils cat debug then ["VK_EXT_debug_utils"] else [])
    ++ cat.globalExts.filterMap surfaceExtMatch

/-- A catalog whose discovery queries report the same layer name and the
same extension name twice. -/
def dupCatalog : Catalog :=
  { layers := ["VK_LAYER_KHRONOS_validation", "VK_LAYER_KHRONOS_validation"]
  , layerExts := fun _ => ["VK_EXT_debug_utils"]
  , globalExts := ["VK_KHR_surface", "VK_KHR_surface"] }

/-- A small duplicate-free catalog offering validation, debug-utils and the
two cross-platform surface extensions. -/
def simpleCatalog : Catalog :=
  { layers := ["VK_LAYER_KHRONOS_validation"]
  , layerExts := fun _ => ["VK_EXT_debug_utils"]
  , globalExts := ["VK_KHR_surface", "VK_KHR_display"] }

/-- A catalog whose driver-wide extension query reports `VK_KHR_surface`
seventeen times. -/
def overflowCatalog : Catalog :=
  { layers := []
  , layerExts := fun _ => []
  , globalExts := List.replicate 17 "VK_KHR_surface" }

/-! ## Enumeration, listing and selection flow (src/main.c, `main`,
lines 111-189) -/

/-- The log levels of `log.h` (`log_trace` .. `log_fatal`). -/
inductive LogLevel where
  | trace
  | debug
  | info
  | warn
  | error
  | fatal
deriving DecidableEq, Repr

/-- How the enumeration/selection block of `main` ends. -/
inductive MainOutcome where
  | exit (code : Int)
  | listed (output : String)
  | selected (index : Nat)
deriving DecidableEq, Repr

/-- The process exit code of an outcome (`--list-devices` returns 0, a
completed selection falls through to `return 0`). -/
def MainOutcome.code : MainOutcome → Int
  | .exit c => c
  | .listed _ => 0
  | .selected _ => 0

/-- An outcome of `main`'s enumeration/selection block together with the
log lines it emits. -/
structure FlowResult where
  logs : List (LogLevel × String)
  outcome : MainOutcome
deriving DecidableEq, Repr

/-- The driver's answers to the two `vkEnumeratePhysicalDevices` calls and
the per-device `vkGetPhysicalDeviceProperties` results: the status and count
of the count query, the status of the fill query, and the descriptors (a
faithful driver fills exactly `count` of them). -/
structure EnumInput where
  countResult : Int
  count : Nat
  fillResult : Int
  props : List PhysicalDeviceDescriptor

/-- The uppercase hexadecimal digit characters emitted by `printf` `%X`. -/
def hexDigitUpper (n : Nat) : Char :=
  if n < 10 then Char.ofNat (48 + n) else Char.ofNat (55 + n)

/-- The last `k` hexadecimal digits of `n`, most significant first, with
leading zeros: the digits `%08X` prints for `k = 8` and a `uint32_t`. -/
def toHexDigits : Nat → Nat → List Char
  | 0, _ => []
  | k + 1, n => toHexDigits k (n / 16) ++ [hexDigitUpper (n % 16)]

/-- `printf("%08X", n)` for a `uint32_t` value. -/
def toHex8 (n : Nat) : String := String.mk (toHexDigits 8 n)

/-- The per-device lines of the `--list-devices` output (lines 142-147),
indices counting up from 0. -/
def deviceLines : Nat → List PhysicalDeviceDescriptor → String
  | _, [] => ""
  | i, p :: ps =>
    "Device " ++ toString i ++ ":\n" ++ "    Name: " ++ p.deviceName ++ "\n"
      ++ "    ID: 0x" ++ toHex8 p.deviceID ++ "\n" ++ deviceLines (i + 1) ps

/-- The whole `--list-devices` output (lines 139-148). -/
def listDevicesOutput (props : List PhysicalDeviceDescriptor) : String :=
  "Available physical devices: " ++ "Count = " ++ toString props.length ++ "\n"
    ++ deviceLines 0 props

/-- The enumeration/listing/selection block of `main` (lines 111-189):
a failing count query is fatal (`exit(-1)`), a zero count is the recoverable
no-device condition (`exit(1)`), a failing fill query is fatal,
`--list-devices` prints and returns 0, and otherwise a device is selected
and reported. -/
def enumAndSelect (inp : EnumInput) (listFlag : Bool) (hint : Option String) :
    FlowResult :=
  if inp.countResult ≠ 0 then
    ⟨[(.fatal, "vkEnumeratePhysicalDevices failed")], .exit (-1)⟩
  else if inp.count = 0 then
    ⟨[(.error, "No available physical device found")], .exit 1⟩
  else if inp.fillResult ≠ 0 then
    ⟨[(.fatal, "vkEnumeratePhysicalDevices failed")], .exit (-1)⟩
  else if listFlag then
    ⟨[], .listed (listDevicesOutput inp.props)⟩
  else
    ⟨[(.info, "Selected device: "
        ++ ((inp.props.get? (selectPhysicalDevice inp.props hint)).map
              PhysicalDeviceDescriptor.deviceName).getD "")],
      .selected (selectPhysicalDevice inp.props hint)⟩

/-! ## Diagnostic callback and messenger registration (src/main.c,
`cgvk_HandleDebugCallback` lines 220-241, `init_debug_utils` lines 243-260) -/

/-- `VK_DEBUG_UTILS_MESSAGE_SEVERITY_VERBOSE_BIT_EXT`. -/
def SEVERITY_VERBOSE_BIT : Nat := 0x00000001

/-- `VK_DEBUG_UTILS_MESSAGE_SEVERITY_INFO_BIT_EXT`. -/
def SEVERITY_INFO_BIT : Nat := 0x00000010

/-- `VK_DEBUG_UTILS_MESSAGE_SEVERITY_WARNING_BIT_EXT`. -/
def SEVERITY_WARNING_BIT : Nat := 0x00000100

/-- `VK_DEBUG_UTILS_MESSAGE_SEVERITY_ERROR_BIT_EXT`. -/
def SEVERITY_ERROR_BIT : Nat := 0x00001000

/-- `VK_DEBUG_UTILS_MESSAGE_TYPE_GENERAL_BIT_EXT`. -/
def TYPE_GENERAL_BIT : Nat := 0x00000001

/-- `VK_DEBUG_UTILS_MESSAGE_TYPE_VALIDATION_BIT_EXT`. -/
def TYPE_VALIDATION_BIT : Nat := 0x00000002

/-- `VK_DEBUG_UTILS_MESSAGE_TYPE_PERFORMANCE_BIT_EXT`. -/
def TYPE_PERFORMANCE_BIT : Nat := 0x00000004

/-- What one invocation of the debug callback does: the log line it emits,
if any, and its `VkBool32` return value. -/
structure CallbackResult where
  log : Option (LogLevel × String)
  ret : Bool
deriving DecidableEq, Repr

/-- `cgvk_HandleDebugCallback` (lines 220-241): switch on the severity,
log `"[vk] "` plus the driver's message at the matching level, drop
anything else, always return `VK_FALSE`. -/
def cgvk_HandleDebugCallback (messageSeverity : Nat) (message : String) :
    CallbackResult :=
  if messageSeverity = SEVERITY_INFO_BIT then ⟨some (.info, "[vk] " ++ message), false⟩
  else if messageSeverity = SEVERITY_WARNING_BIT then
    ⟨some (.warn, "[vk] " ++ message), false⟩
  else if messageSeverity = SEVERITY_ERROR_BIT then
    ⟨some (.error, "[vk] " ++ message), false⟩
  else ⟨none, false⟩

/-- The fields of `VkDebugUtilsMessengerCreateInfoEXT` that carry the
registration's filtering decision. -/
structure DebugUtilsMessengerCreateInfo where
  messageSeverity : Nat
  messageType : Nat
deriving DecidableEq, Repr

/-- The `createinfo` built by `init_debug_utils` (lines 245-253). -/
def init_debug_utils_createinfo : DebugUtilsMessengerCreateInfo :=
  { messageSeverity := SEVERITY_ERROR_BIT ||| SEVERITY_WARNING_BIT
  , messageType := TYPE_GENERAL_BIT ||| TYPE_VALIDATION_BIT ||| TYPE_PERFORMANCE_BIT }

/-! ## Context lifecycle (src/main.c, `Context` lines 28-52,
`initialize_context` lines 192-200, `destroy_context` lines 202-218) -/

/-- The `Context` record; Vulkan handles and the image array become
`Option` values, `none` standing for `VK_NULL_HANDLE` / `NULL`. -/
structure Context where
  physical_device : Option Nat
  device : Option Nat
  allocator : Option Nat
  surface : Option Nat
  swapchain : Option Nat
  supports_KHR_swapchain : Bool
  graphics_queue_family : Nat
  present_queue_family : Nat
  num_swapchain_images : Nat
  swapchain_images : Option (List Nat)
deriving DecidableEq, Repr

/-- The destruction calls `destroy_context` can issue, one constructor per
call site, in source order. -/
inductive DestroyOp where
  | vmaDestroyAllocator
  | freeSwapchainImages
  | vkDestroySwapchain
  | vkDestroyDevice
  | vkDestroySurfaceKHR
deriving DecidableEq, Repr

/-- `destroy_context` (lines 202-218): the sequence of destruction calls it
issues, each guarded by its field being populated. -/
def destroy_context (c : Context) : List DestroyOp :=
  (if c.allocator.isSome then [DestroyOp.vmaDestroyAllocator] else [])
    ++ (if c.swapchain_images.isSome then [DestroyOp.freeSwapchainImages] else [])
    ++ (if c.swapchain.isSome then [DestroyOp.vkDestroySwapchain] else [])
    ++ (if c.device.isSome then [DestroyOp.vkDestroyDevice] else [])
    ++ (if c.surface.isSome then [DestroyOp.vkDestroySurfaceKHR] else [])

/-- The mandated teardown order: allocator, swapchain-image storage,
swapchain, logical device, surface. -/
def teardownOrder : List DestroyOp :=
  [DestroyOp.vmaDestroyAllocator, DestroyOp.freeSwapchainImages,
   DestroyOp.vkDestroySwapchain, DestroyOp.vkDestroyDevice,
   DestroyOp.vkDestroySurfaceKHR]

/-- A `Context` in state `DeviceBound`: only the physical device bound,
every later field still at its zero-initialized value (lines 41-52). -/
def deviceBoundContext (pd : Nat) : Context :=
  { physical_device := some pd
  , device := none
  , allocator := none
  , surface := none
  , swapchain := none
  , supports_KHR_swapchain := false
  , graphics_queue_family := 2 ^ 32 - 1
  , present_queue_family := 2 ^ 32 - 1
  , num_swapchain_images := 0
  , swapchain_images := none }

theorem findFirst_some_lt {α : Type} {P : α → Bool} {l : List α} {i : Nat}
    (h : findFirst P l = some i) : i < l.length := by
  induction l generalizing i with
  | nil => simp [findFirst] at h
  | cons x xs ih =>
    by_cases hx : P x
    · simp [findFirst, hx] at h
      subst h
      simp only [List.length_cons]
      omega
    · simp [findFirst, hx] at h
      obtain ⟨j, hj, rfl⟩ := h
      have := ih hj
      simp only [List.length_cons]
      omega

theorem findFirst_some_first {α : Type} {P : α → Bool} {l : List α} {i : Nat}
    (h : findFirst P l = some i) : firstMatch (fun p => P p = true) l i := by
  induction l generalizing i with
  | nil => simp [findFirst] at h
  | cons x xs ih =>
    by_cases hx : P x
    · simp [findFirst, hx] at h
      subst h
      exact ⟨x, rfl, hx, fun j hj => by omega⟩
    · simp [findFirst, hx] at h
      obtain ⟨j, hj, rfl⟩ := h
      obtain ⟨p, hp, hPp, hmin⟩ := ih hj
      refine ⟨p, hp, hPp, ?_⟩
      intro k hk q hq
      match k with
      | 0 =>
        simp only [List.get?] at hq
        cases hq
        simpa using hx
      | k + 1 =>
        exact hmin k (by omega) q hq

theorem findFirst_none {α : Type} {P : α → Bool} {l : List α}
    (h : findFirst P l = none) : noMatch (fun p => P p = true) l := by
  induction l with
  | nil => intro p hp; simp at hp
  | cons x xs ih =>
    by_cases hx : P x
    · simp [findFirst, hx] at h
    · simp [findFirst, hx] at h
      intro p hp
      rcases List.mem_cons.mp hp with hp1 | hp1
      · subst hp1; simpa using hx
      · exact ih h p hp1

theorem findFirst_getD_spec {α : Type} (P : α → Bool) (l : List α) :
    firstMatchOrZero (fun p => P p = true) l ((findFirst P l).getD 0) := by
  cases h : findFirst P l with
  | none => exact Or.inr ⟨findFirst_none h, rfl⟩
  | some i => exact Or.inl (findFirst_some_first h)

theorem findFirst_getD_lt {α : Type} (P : α → Bool) (l : List α)
    (h : l ≠ []) : (findFirst P l).getD 0 < l.length := by
  cases hf : findFirst P l with
  | none => simpa using List.length_pos.mpr h
  | some i => simpa using findFirst_some_lt hf

theorem firstMatch_congr {α : Type} {Q R : α → Prop} (hQR : ∀ p, Q p ↔ R p)
    {l : List α} {i : Nat} (h : firstMatch Q l i) : firstMatch R l i := by
  obtain ⟨p, hp, hQp, hmin⟩ := h
  exact ⟨p, hp, (hQR p).mp hQp,
    fun j hj q hq hRq => hmin j hj q hq ((hQR q).mpr hRq)⟩

theorem noMatch_congr {α : Type} {Q R : α → Prop} (hQR : ∀ p, Q p ↔ R p)
    {l : List α} (h : noMatch Q l) : noMatch R l :=
  fun p hp hRp => h p hp ((hQR p).mpr hRp)

theorem firstMatchOrZero_congr {α : Type} {Q R : α → Prop} (hQR : ∀ p, Q p ↔ R p)
    {l : List α} {i : Nat} (h : firstMatchOrZero Q l i) : firstMatchOrZero R l i := by
  rcases h with h | ⟨h, rfl⟩
  · exact Or.inl (firstMatch_congr hQR h)
  · exact Or.inr ⟨noMatch_congr hQR h, rfl⟩

/-- C1: For every non-empty descriptor list and optional hint, device
selection is deterministic with first-match-wins precedence: a hint
beginning `"0x"` selects the first descriptor whose identifier equals the
hex-parsed hint, any other hint selects the first descriptor whose name
equals it byte-for-byte and, only when no exact match exists, the first
whose name contains it as a substring; with no hint or no match, index 0 is
selected silently. On the spec's example descriptors, hint `"0x21"` selects
index 2, `"Beta"` index 1, `"eta"` index 1, `"Gamma"` index 0, and no hint
index 0. -/
theorem C1_selection (props : List PhysicalDeviceDescriptor) (hint : Option String)
    (hne : props ≠ []) :
    selectPhysicalDevice props hint < props.length
    ∧ (hint = none → selectPhysicalDevice props hint = 0)
    ∧ (∀ h, hint = some h → beginsWith0x h = true →
        firstMatchOrZero (fun p => p.deviceID = hintId h) props
          (selectPhysicalDevice props hint))
    ∧ (∀ h, hint = some h → beginsWith0x h = false →
        (firstMatch (fun p => p.deviceName = h) props (selectPhysicalDevice props hint)
          ∨ (noMatch (fun p => p.deviceName = h) props
             ∧ firstMatchOrZero (fun p => occursIn h.toList p.deviceName.toList = true)
                 props (selectPhysicalDevice props hint))))
    ∧ selectPhysicalDevice exampleDevices (some "0x21") = 2
    ∧ selectPhysicalDevice exampleDevices (some "Beta") = 1
    ∧ selectPhysicalDevice exampleDevices (some "eta") = 1
    ∧ selectPhysicalDevice exampleDevices (some "Gamma") = 0
    ∧ selectPhysicalDevice exampleDevices none = 0 := by
  refine ⟨?_, ?_, ?_, ?_, by decide, by decide, by decide, by decide, by decide⟩
  · cases hint with
    | none => simpa [selectPhysicalDevice] using List.length_pos.mpr hne
    | some h =>
      by_cases hb : beginsWith0x h = true
      · simpa [selectPhysicalDevice, hb] using
          findFirst_getD_lt (fun p => p.deviceID == hintId h) props hne
      · cases hfe : findFirst (fun p => p.deviceName == h) props with
        | some i =>
          have hlt := findFirst_some_lt hfe
          simpa [selectPhysicalDevice, hb, hfe] using hlt
        | none =>
          simpa [selectPhysicalDevice, hb, hfe] using
            findFirst_getD_lt (fun p => occursIn h.toList p.deviceName.toList) props hne
  · rintro rfl
    simp [selectPhysicalDevice]
  · rintro h rfl hb
    have hsel : selectPhysicalDevice props (some h)
        = (findFirst (fun p => p.deviceID == hintId h) props).getD 0 := by
      simp [selectPhysicalDevice, hb]
    rw [hsel]
    exact firstMatchOrZero_congr (fun p => by simp)
      (findFirst_getD_spec (fun p => p.deviceID == hintId h) props)
  · rintro h rfl hb
    cases hfe : findFirst (fun p => p.deviceName == h) props with
    | some i =>
      have hsel : selectPhysicalDevice props (some h) = i := by
        simp [selectPhysicalDevice, hb, hfe]
      rw [hsel]
      exact Or.inl (firstMatch_congr (fun p => by simp) (findFirst_some_first hfe))
    | none =>
      have hsel : selectPhysicalDevice props (some h)
          = (findFirst (fun p => occursIn h.toList p.deviceName.toList) props).getD 0 := by
        simp [selectPhysicalDevice, hb, hfe]
      rw [hsel]
      refine Or.inr ⟨noMatch_congr (fun p => by simp) (findFirst_none hfe), ?_⟩
      exact findFirst_getD_spec (fun p => occursIn h.toList p.deviceName.toList) props

theorem C1_selection_witness :
    exampleDevices ≠ [] ∧ selectPhysicalDevice exampleDevices (some "Beta") = 1 :=
  ⟨by decide, (C1_selection exampleDevices (some "Beta") (by decide)).2.2.2.2.2.1⟩


theorem surfaceExtMatch_some_eq {x y : String} (h : surfaceExtMatch x = some y) :
    y = x := by
  unfold surfaceExtMatch at h
  split at h
  · cases h; simp_all
  · split at h
    · cases h; simp_all
    · split at h
      · cases h; simp_all
      · split at h
        · cases h; simp_all
        · split at h
          · cases h; simp_all
          · cases h

theorem surfaceExtMatch_not_debug_utils (x : String) :
    surfaceExtMatch x ≠ some "VK_EXT_debug_utils" := by
  intro h
  have hx := surfaceExtMatch_some_eq h
  unfold surfaceExtMatch at h
  subst hx
  simp_all

theorem layerMatch_some_eq {x y : String} (h : layerMatch x = some y) : y = x := by
  unfold layerMatch at h
  split at h
  · cases h; simp_all
  · split at h
    · cases h; simp_all
    · cases h

theorem filterMap_id_sublist {f : String → Option String}
    (hf : ∀ x y, f x = some y → y = x) (l : List String) :
    List.Sublist (l.filterMap f) l := by
  induction l with
  | nil => simp
  | cons x xs ih =>
    cases hfx : f x with
    | none =>
      rw [List.filterMap_cons, hfx]
      exact ih.cons x
    | some y =>
      rw [List.filterMap_cons, hfx, hf x y hfx]
      exact List.Sublist.cons₂ x ih

/-- C2: with the verbose flag off no layers are negotiated. -/
theorem C2_no_debug (cat : Catalog) :
    negotiatedLayers cat false = []
    ∧ supportsDebugUtils cat false = false
    ∧ "VK_EXT_debug_utils" ∉ negotiatedExtensions cat false := by
  refine ⟨rfl, rfl, ?_⟩
  intro hmem
  have hmem2 : "VK_EXT_debug_utils" ∈ cat.globalExts.filterMap surfaceExtMatch := by
    simpa [negotiatedExtensions, supportsDebugUtils] using hmem
  rw [List.mem_filterMap] at hmem2
  obtain ⟨x, _, hsx⟩ := hmem2
  exact surfaceExtMatch_not_debug_utils x hsx

/-- C3: no negotiated extension is invented: whenever `VK_EXT_debug_utils`
is in the negotiated set it is backed by some negotiated layer's per-layer
extension query — the driver-wide query cannot justify it — and every other
negotiated extension name appears in the driver-wide query. -/
theorem C3_no_invented (cat : Catalog) (debug : Bool) (e : String)
    (he : e ∈ negotiatedExtensions cat debug) :
    (e = "VK_EXT_debug_utils" →
       ∃ l, l ∈ negotiatedLayers cat debug ∧ "VK_EXT_debug_utils" ∈ cat.layerExts l)
    ∧ (e ≠ "VK_EXT_debug_utils" → e ∈ cat.globalExts) := by
  unfold negotiatedExtensions at he
  rw [List.mem_append] at he
  rcases he with he | he
  · cases hs : supportsDebugUtils cat debug with
    | false => rw [hs] at he; simp at he
    | true =>
      rw [hs] at he
      simp at he
      subst he
      refine ⟨fun _ => ?_, fun hne => absurd rfl hne⟩
      unfold supportsDebugUtils at hs
      rw [Bool.and_eq_true] at hs
      obtain ⟨-, hany⟩ := hs
      rw [List.any_eq_true] at hany
      obtain ⟨l, hl, hany2⟩ := hany
      rw [List.any_eq_true] at hany2
      obtain ⟨e2, he2, heq⟩ := hany2
      rw [beq_iff_eq] at heq
      subst heq
      exact ⟨l, hl, he2⟩
  · rw [List.mem_filterMap] at he
    obtain ⟨x, hx, hsx⟩ := he
    refine ⟨fun heq => ?_, fun _ => ?_⟩
    · rw [heq] at hsx
      exact absurd hsx (surfaceExtMatch_not_debug_utils x)
    · rw [surfaceExtMatch_some_eq hsx]
      exact hx

theorem C3_no_invented_witness :
    ("VK_EXT_debug_utils" ∈ negotiatedExtensions simpleCatalog true)
    ∧ (∃ l, l ∈ negotiatedLayers simpleCatalog true
         ∧ "VK_EXT_debug_utils" ∈ simpleCatalog.layerExts l) :=
  ⟨by decide,
   (C3_no_invented simpleCatalog true "VK_EXT_debug_utils" (by decide)).1 rfl⟩

/-- C4 counterexample: duplicated discovery entries are appended twice. -/
theorem C4_counterexample_dup :
    negotiatedLayers dupCatalog true
      = ["VK_LAYER_KHRONOS_validation", "VK_LAYER_KHRONOS_validation"]
    ∧ ¬ (negotiatedLayers dupCatalog true).Nodup
    ∧ negotiatedExtensions dupCatalog false = ["VK_KHR_surface", "VK_KHR_surface"]
    ∧ ¬ (negotiatedExtensions dupCatalog false).Nodup := by
  refine ⟨by decide, by decide, by decide, by decide⟩

/-- C4 amended: duplicate-free discovery gives duplicate-free results. -/
theorem C4_amended_nodup (cat : Catalog) (debug : Bool)
    (hl : cat.layers.Nodup) (hg : cat.globalExts.Nodup) :
    (negotiatedLayers cat debug).Nodup ∧ (negotiatedExtensions cat debug).Nodup := by
  have hlay : (negotiatedLayers cat debug).Nodup := by
    unfold negotiatedLayers
    split
    · exact (filterMap_id_sublist (fun x y h => layerMatch_some_eq h) cat.layers).nodup hl
    · exact List.nodup_nil
  refine ⟨hlay, ?_⟩
  unfold negotiatedExtensions
  rw [List.nodup_append]
  refine ⟨?_, ?_, ?_⟩
  · split <;> simp
  · exact (filterMap_id_sublist (fun x y h => surfaceExtMatch_some_eq h)
      cat.globalExts).nodup hg
  · split
    · intro a ha hb
      rw [List.mem_singleton] at ha
      subst ha
      rw [List.mem_filterMap] at hb
      obtain ⟨x, _, hsx⟩ := hb
      exact surfaceExtMatch_not_debug_utils x hsx
    · simp [List.Disjoint]

theorem C4_amended_nodup_witness :
    simpleCatalog.layers.Nodup ∧ simpleCatalog.globalExts.Nodup
    ∧ (negotiatedExtensions simpleCatalog true).Nodup :=
  ⟨by decide, by decide,
    (C4_amended_nodup simpleCatalog true (by decide) (by decide)).2⟩

/-- C5: the 16-entry extension array is overflowed by a catalog whose
driver-wide query repeats a matching name 17 times. -/
theorem C5_overflow :
    (negotiatedExtensions overflowCatalog false).length = 17
    ∧ 16 < (negotiatedExtensions overflowCatalog false).length := by
  refine ⟨by decide, by decide⟩


/-- C6: zero devices is the recoverable exit-1 path, a failing count query
the fatal exit-(-1) path. -/
theorem C6_device_count (inp : EnumInput) (lf : Bool) (hint : Option String) :
    (inp.countResult = 0 → inp.count = 0 →
      enumAndSelect inp lf hint
          = ⟨[(LogLevel.error, "No available physical device found")],
             MainOutcome.exit 1⟩
        ∧ ∀ i, (enumAndSelect inp lf hint).outcome ≠ MainOutcome.selected i)
    ∧ (inp.countResult ≠ 0 →
      enumAndSelect inp lf hint
          = ⟨[(LogLevel.fatal, "vkEnumeratePhysicalDevices failed")],
             MainOutcome.exit (-1)⟩
        ∧ (enumAndSelect inp lf hint).outcome ≠ MainOutcome.exit 1
        ∧ ∀ i, (enumAndSelect inp lf hint).outcome ≠ MainOutcome.selected i) := by
  constructor
  · intro h0 hc
    have he : enumAndSelect inp lf hint
        = ⟨[(LogLevel.error, "No available physical device found")],
           MainOutcome.exit 1⟩ := by
      simp [enumAndSelect, h0, hc]
    exact ⟨he, fun i => by rw [he]; simp⟩
  · intro h0
    have he : enumAndSelect inp lf hint
        = ⟨[(LogLevel.fatal, "vkEnumeratePhysicalDevices failed")],
           MainOutcome.exit (-1)⟩ := by
      simp [enumAndSelect, h0]
    refine ⟨he, by rw [he]; simp, fun i => by rw [he]; simp⟩

theorem C6_device_count_witness :
    enumAndSelect ⟨0, 0, 0, []⟩ false none
      = ⟨[(LogLevel.error, "No available physical device found")],
         MainOutcome.exit 1⟩ :=
  ((C6_device_count ⟨0, 0, 0, []⟩ false none).1 rfl rfl).1

/-- C7: severity-to-level mapping of the debug callback. -/
theorem C7_callback (sev : Nat) (msg : String) :
    (cgvk_HandleDebugCallback sev msg).ret = false
    ∧ cgvk_HandleDebugCallback SEVERITY_ERROR_BIT msg
        = ⟨some (LogLevel.error, "[vk] " ++ msg), false⟩
    ∧ cgvk_HandleDebugCallback SEVERITY_WARNING_BIT msg
        = ⟨some (LogLevel.warn, "[vk] " ++ msg), false⟩
    ∧ cgvk_HandleDebugCallback SEVERITY_INFO_BIT msg
        = ⟨some (LogLevel.info, "[vk] " ++ msg), false⟩
    ∧ (sev ≠ SEVERITY_INFO_BIT → sev ≠ SEVERITY_WARNING_BIT →
        sev ≠ SEVERITY_ERROR_BIT → (cgvk_HandleDebugCallback sev msg).log = none) := by
  refine ⟨?_, ?_, ?_, ?_, ?_⟩
  · unfold cgvk_HandleDebugCallback
    split
    · rfl
    · split
      · rfl
      · split <;> rfl
  · simp [cgvk_HandleDebugCallback, SEVERITY_ERROR_BIT, SEVERITY_INFO_BIT,
      SEVERITY_WARNING_BIT]
  · simp [cgvk_HandleDebugCallback, SEVERITY_ERROR_BIT, SEVERITY_INFO_BIT,
      SEVERITY_WARNING_BIT]
  · simp [cgvk_HandleDebugCallback]
  · intro h1 h2 h3
    simp [cgvk_HandleDebugCallback, h1, h2, h3]

theorem C7_callback_witness :
    (cgvk_HandleDebugCallback SEVERITY_VERBOSE_BIT "m").log = none :=
  (C7_callback SEVERITY_VERBOSE_BIT "m").2.2.2.2 (by decide) (by decide) (by decide)

theorem toHexDigits_length (k n : Nat) : (toHexDigits k n).length = k := by
  induction k generalizing n with
  | zero => rfl
  | succ k ih => simp [toHexDigits, ih]

theorem hexDigitsVal_append_digit (l : List Char) (c : Char) :
    hexDigitsVal (l ++ [c]) = 16 * hexDigitsVal l + (hexVal? c).getD 0 := by
  unfold hexDigitsVal
  rw [List.foldl_append]
  rfl

theorem hexVal_hexDigitUpper {m : Nat} (hm : m < 16) :
    (hexVal? (hexDigitUpper m)).getD 0 = m := by
  have h : ∀ m2, m2 < 16 → (hexVal? (hexDigitUpper m2)).getD 0 = m2 := by decide
  exact h m hm

theorem hexDigitUpper_mem {m : Nat} (hm : m < 16) :
    hexDigitUpper m ∈ "0123456789ABCDEF".toList := by
  have h : ∀ m2, m2 < 16 → hexDigitUpper m2 ∈ "0123456789ABCDEF".toList := by decide
  exact h m hm

theorem toHexDigits_val (k n : Nat) :
    hexDigitsVal (toHexDigits k n) = n % 16 ^ k := by
  induction k generalizing n with
  | zero => simp [toHexDigits, hexDigitsVal, Nat.mod_one]
  | succ k ih =>
    rw [toHexDigits, hexDigitsVal_append_digit, ih,
      hexVal_hexDigitUpper (Nat.mod_lt _ (by omega))]
    rw [Nat.pow_succ, Nat.mul_comm (16 ^ k) 16, Nat.mod_mul]
    omega

theorem toHexDigits_mem (k n : Nat) :
    ∀ c ∈ toHexDigits k n, c ∈ "0123456789ABCDEF".toList := by
  induction k generalizing n with
  | zero => intro c hc; simp [toHexDigits] at hc
  | succ k ih =>
    intro c hc
    rw [toHexDigits] at hc
    rcases List.mem_append.mp hc with h | h
    · exact ih _ c h
    · rw [List.mem_singleton] at h
      subst h
      exact hexDigitUpper_mem (Nat.mod_lt _ (by omega))

/-- C8: list-devices output shape and early exit. -/
theorem C8_list_devices (inp : EnumInput) (hint : Option String)
    (hcr : inp.countResult = 0) (hcount : inp.count ≠ 0) (hfr : inp.fillResult = 0)
    (hwf : inp.props.length = inp.count) :
    enumAndSelect inp true hint = ⟨[], MainOutcome.listed (listDevicesOutput inp.props)⟩
    ∧ (enumAndSelect inp true hint).outcome.code = 0
    ∧ (∀ i, (enumAndSelect inp true hint).outcome ≠ MainOutcome.selected i)
    ∧ listDevicesOutput inp.props
        = "Available physical devices: " ++ "Count = " ++ toString inp.count ++ "\n"
            ++ deviceLines 0 inp.props
    ∧ (∀ p ∈ inp.props, (toHexDigits 8 p.deviceID).length = 8
        ∧ (∀ c ∈ toHexDigits 8 p.deviceID, c ∈ "0123456789ABCDEF".toList)
        ∧ (p.deviceID < 2 ^ 32 → hexDigitsVal (toHexDigits 8 p.deviceID) = p.deviceID)) := by
  have he : enumAndSelect inp true hint
      = ⟨[], MainOutcome.listed (listDevicesOutput inp.props)⟩ := by
    simp [enumAndSelect, hcr, hcount, hfr]
  refine ⟨he, by rw [he]; rfl, fun i => by rw [he]; simp, ?_, ?_⟩
  · rw [listDevicesOutput, hwf]
  · intro p _
    refine ⟨toHexDigits_length 8 p.deviceID, toHexDigits_mem 8 p.deviceID, ?_⟩
    intro hlt
    rw [toHexDigits_val]
    exact Nat.mod_eq_of_lt (by norm_num at hlt ⊢; omega)

theorem C8_list_devices_witness :
    enumAndSelect ⟨0, 1, 0, [⟨"Alpha", 0x10⟩]⟩ true none
      = ⟨[], MainOutcome.listed (listDevicesOutput [⟨"Alpha", 0x10⟩])⟩ :=
  (C8_list_devices ⟨0, 1, 0, [⟨"Alpha", 0x10⟩]⟩ none rfl (by decide) rfl rfl).1


/-- C9: teardown releases populated fields in the mandated order and skips
unpopulated ones; a `DeviceBound` context performs no destruction call. -/
theorem C9_teardown (c : Context) :
    List.Sublist (destroy_context c) teardownOrder
    ∧ (DestroyOp.vmaDestroyAllocator ∈ destroy_context c ↔ c.allocator.isSome = true)
    ∧ (DestroyOp.freeSwapchainImages ∈ destroy_context c
        ↔ c.swapchain_images.isSome = true)
    ∧ (DestroyOp.vkDestroySwapchain ∈ destroy_context c ↔ c.swapchain.isSome = true)
    ∧ (DestroyOp.vkDestroyDevice ∈ destroy_context c ↔ c.device.isSome = true)
    ∧ (DestroyOp.vkDestroySurfaceKHR ∈ destroy_context c ↔ c.surface.isSome = true)
    ∧ (c.allocator = none → c.swapchain_images = none → c.swapchain = none →
        c.device = none → c.surface = none → destroy_context c = [])
    ∧ (∀ pd, destroy_context (deviceBoundContext pd) = []) := by
  obtain ⟨pdv, dev, alloc, surf, swap, sks, gqf, pqf, nsi, imgs⟩ := c
  refine ⟨?_, ?_⟩
  · cases alloc <;> cases imgs <;> cases swap <;> cases dev <;> cases surf <;>
      (simp [destroy_context, teardownOrder]; all_goals decide)
  · cases alloc <;> cases imgs <;> cases swap <;> cases dev <;> cases surf <;>
      simp [destroy_context, deviceBoundContext]

theorem C9_teardown_witness :
    destroy_context (deviceBoundContext 7) = [] :=
  (C9_teardown (deviceBoundContext 7)).2.2.2.2.2.2.1 rfl rfl rfl rfl rfl

/-- C10: the messenger severity mask holds only the error and warning bits,
so the callback's informational branch is unreachable via it. -/
theorem C10_messenger_mask (msg : String) :
    init_debug_utils_createinfo.messageSeverity
        = (SEVERITY_ERROR_BIT ||| SEVERITY_WARNING_BIT)
    ∧ SEVERITY_INFO_BIT &&& init_debug_utils_createinfo.messageSeverity = 0
    ∧ SEVERITY_VERBOSE_BIT &&& init_debug_utils_createinfo.messageSeverity = 0
    ∧ SEVERITY_WARNING_BIT = 2 ^ 8
    ∧ SEVERITY_ERROR_BIT = 2 ^ 12
    ∧ (∀ b, (init_debug_utils_createinfo.messageSeverity).testBit b = true
        → b = 8 ∨ b = 12)
    ∧ (cgvk_HandleDebugCallback SEVERITY_INFO_BIT msg).log
        = some (LogLevel.info, "[vk] " ++ msg)
    ∧ (∀ sev, sev = SEVERITY_VERBOSE_BIT ∨ sev = SEVERITY_INFO_BIT
          ∨ sev = SEVERITY_WARNING_BIT ∨ sev = SEVERITY_ERROR_BIT →
        (sev &&& init_debug_utils_createinfo.messageSeverity ≠ 0
          ↔ (sev = SEVERITY_WARNING_BIT ∨ sev = SEVERITY_ERROR_BIT))) := by
  refine ⟨rfl, by decide, by decide, by decide, by decide, ?_, ?_, ?_⟩
  · intro b hb
    by_cases hlt : b < 13
    · have h : ∀ b2, b2 < 13 →
          (init_debug_utils_createinfo.messageSeverity).testBit b2 = true
          → b2 = 8 ∨ b2 = 12 := by decide
      exact h b hlt hb
    · exfalso
      have hge : 13 ≤ b := by omega
      have hlt2 : init_debug_utils_createinfo.messageSeverity < 2 ^ b := by
        calc init_debug_utils_createinfo.messageSeverity < 2 ^ 13 := by decide
          _ ≤ 2 ^ b := Nat.pow_le_pow_right (by omega) hge
      rw [Nat.testBit_lt_two_pow hlt2] at hb
      exact Bool.false_ne_true hb
  · simp [cgvk_HandleDebugCallback]
  · intro sev hsev
    rcases hsev with rfl | rfl | rfl | rfl <;> constructor <;> intro h <;>
      first
        | decide
        | (exfalso; revert h; decide)

theorem C10_messenger_mask_witness :
    SEVERITY_WARNING_BIT &&& init_debug_utils_createinfo.messageSeverity ≠ 0
      ↔ (SEVERITY_WARNING_BIT = SEVERITY_WARNING_BIT
          ∨ SEVERITY_WARNING_BIT = SEVERITY_ERROR_BIT) :=
  (C10_messenger_mask "m").2.2.2.2.2.2.2 SEVERITY_WARNING_BIT
    (Or.inr (Or.inr (Or.inl rfl)))

end Qpvk
